import Mathlib

/- Verification of a minimal HTTP/1.1 server (app/main.py).
   Python strings are modelled as lists of characters, byte strings as lists of
   naturals below 256.  A raised exception is modelled by an explicit
   constructor (none / Ret.raises), so every modelled operation is total. -/

/-- Characters lists are the model of Python strings. -/
abbrev Str : Type := List Char

/-- Whitespace characters recognised by Python str.split and str.strip (ASCII subset). -/
def isPySpace (c : Char) : Bool :=
  c == ' ' || c == '\t' || c == '\n' || c == '\r' || c == '\x0b' || c == '\x0c'

/-- Line-boundary characters recognised by Python str.splitlines. -/
def isLineBreak (c : Char) : Bool :=
  c == '\n' || c == '\r' || c == '\x0b' || c == '\x0c' ||
  c == '\x1c' || c == '\x1d' || c == '\x1e' || c == '\x85' ||
  c == '\u2028' || c == '\u2029'

/-- Helper for splitlines: walks the string with an accumulator for the current line;
    a \r\n pair counts as a single boundary. -/
def splitlinesAux : Str → Str → List Str
  | [], acc => if acc.isEmpty then [] else [acc.reverse]
  | '\r' :: '\n' :: rest, acc => acc.reverse :: splitlinesAux rest []
  | c :: rest, acc =>
    if isLineBreak c then acc.reverse :: splitlinesAux rest []
    else splitlinesAux rest (c :: acc)

/-- Model of Python str.splitlines. -/
def splitlines (s : Str) : List Str := splitlinesAux s []

/-- Model of Python str.split with no separator: split on runs of whitespace,
    discarding empty pieces. -/
def pySplitWs (s : Str) : List Str :=
  (s.splitOnP isPySpace).filter (fun l => !l.isEmpty)

/-- Model of Python line.split with separator a colon and maxsplit one, index one:
    everything after the first colon. -/
def afterColon (l : Str) : Str := (l.dropWhile (fun c => !(c == ':'))).drop 1

/-- Model of Python str.strip with no argument. -/
def pyStrip (s : Str) : Str :=
  ((s.dropWhile isPySpace).reverse.dropWhile isPySpace).reverse

/-- Model of Python str.startswith: an empty pattern matches anything. -/
def startswith : Str → Str → Bool
  | [], _ => true
  | _ :: _, [] => false
  | p :: ps, c :: cs => p == c && startswith ps cs

/-- The user-agent scan of HTTPServer._parse_request: the first line whose
    lower-cased form starts with the string user-agent and a colon yields the
    stripped text after the first colon; otherwise the empty string. -/
def findUserAgent : List Str → Str
  | [] => []
  | l :: rest =>
    if startswith "user-agent:".data (l.map Char.toLower) then pyStrip (afterColon l)
    else findUserAgent rest

/-- Model of HTTPServer._parse_request.  The source unpacks
    lines[0].split() into at least two variables, which raises ValueError when
    the first line has fewer than two whitespace tokens; a raised exception is
    modelled as none.  Empty input returns the sentinel of three empty strings. -/
def parse_request (request : Str) : Option (Str × Str × Str) :=
  match splitlines request with
  | [] => some ([], [], [])
  | first :: rest =>
    match pySplitWs first with
    | method :: path :: _ => some (method, path, findUserAgent (first :: rest))
    | _ => none

/-- Model of HTTPStatus.OK. -/
def HTTPStatus.OK : Nat := 200

/-- Model of HTTPStatus.NOT_FOUND. -/
def HTTPStatus.NOT_FOUND : Nat := 404

/-- Model of HTTPStatus.METHOD_NOT_ALLOWED. -/
def HTTPStatus.METHOD_NOT_ALLOWED : Nat := 405

/-- Model of HTTPStatus.CREATED, which the source sets to 200 (not 201). -/
def HTTPStatus.CREATED : Nat := 200

/-- Model of the HTTPStatus.messages dict literal, in source order.  Because
    CREATED equals OK, the literal writes the key 200 twice. -/
def HTTPStatus.messages : List (Nat × Str) :=
  [(HTTPStatus.OK, "OK".data),
   (HTTPStatus.NOT_FOUND, "Not Found".data),
   (HTTPStatus.METHOD_NOT_ALLOWED, "Method Not Allowed".data),
   (HTTPStatus.CREATED, "Created".data)]

/-- Lookup in a Python dict built from a list literal: a later entry with the
    same key overwrites an earlier one, so the last matching pair wins. -/
def dictGetLast : List (Nat × Str) → Nat → Option Str
  | [], _ => none
  | (k, v) :: rest, c =>
    match dictGetLast rest c with
    | some w => some w
    | none => if k = c then some v else none

/-- Model of HTTPStatus.get_message: dict get with default empty string. -/
def HTTPStatus.get_message (code : Nat) : Str :=
  match dictGetLast HTTPStatus.messages code with
  | some v => v
  | none => []

/-- UTF-8 encoding of one character, as Python open-for-write in text mode
    performs when the file content is written. -/
def utf8EncodeChar (c : Char) : List Nat :=
  let v := c.toNat
  if v < 0x80 then [v]
  else if v < 0x800 then [0xC0 + v / 64, 0x80 + v % 64]
  else if v < 0x10000 then [0xE0 + v / 4096, 0x80 + (v / 64) % 64, 0x80 + v % 64]
  else [0xF0 + v / 262144, 0x80 + (v / 4096) % 64, 0x80 + (v / 64) % 64, 0x80 + v % 64]

/-- UTF-8 encoding of a whole string. -/
def utf8Encode (s : Str) : List Nat := (s.map utf8EncodeChar).flatten

/-- Strict UTF-8 decoding, as Python open-for-read in text mode performs:
    continuation bytes are range-checked and overlong forms, surrogates and
    out-of-range code points are rejected (none models UnicodeDecodeError). -/
def utf8Decode : List Nat → Option Str
  | [] => some []
  | b :: rest =>
    if b < 0x80 then (utf8Decode rest).map (fun s => Char.ofNat b :: s)
    else if b < 0xC2 then none
    else if b < 0xE0 then
      match rest with
      | b2 :: rest2 =>
        if 0x80 ≤ b2 ∧ b2 < 0xC0 then
          (utf8Decode rest2).map (fun s => Char.ofNat ((b - 0xC0) * 64 + (b2 - 0x80)) :: s)
        else none
      | [] => none
    else if b < 0xF0 then
      match rest with
      | b2 :: b3 :: rest3 =>
        if 0x80 ≤ b2 ∧ b2 < 0xC0 ∧ 0x80 ≤ b3 ∧ b3 < 0xC0 then
          let cp := (b - 0xE0) * 4096 + (b2 - 0x80) * 64 + (b3 - 0x80)
          if cp < 0x800 ∨ (0xD800 ≤ cp ∧ cp < 0xE000) then none
          else (utf8Decode rest3).map (fun s => Char.ofNat cp :: s)
        else none
      | _ => none
    else if b < 0xF5 then
      match rest with
      | b2 :: b3 :: b4 :: rest4 =>
        if 0x80 ≤ b2 ∧ b2 < 0xC0 ∧ 0x80 ≤ b3 ∧ b3 < 0xC0 ∧ 0x80 ≤ b4 ∧ b4 < 0xC0 then
          let cp := (b - 0xF0) * 262144 + (b2 - 0x80) * 4096 + (b3 - 0x80) * 64 + (b4 - 0x80)
          if cp < 0x10000 ∨ 0x10FFFF < cp then none
          else (utf8Decode rest4).map (fun s => Char.ofNat cp :: s)
        else none
      | _ => none
    else none

/-- The filesystem visible to the server: an association of file paths to the
    raw bytes stored on disk.  A write prepends; a read takes the first match,
    so the newest write wins (create-or-truncate semantics). -/
abbrev FS : Type := List (Str × List Nat)

/-- Lookup of a path in the modelled filesystem. -/
def fsLookup : FS → Str → Option (List Nat)
  | [], _ => none
  | (p, bs) :: rest, q => if p = q then some bs else fsLookup rest q

/-- Model of Router._create_file: text-mode write encodes the string as UTF-8
    and replaces the file contents.  Operating-system failures (missing
    directory, permissions) are environment conditions outside the model, so
    the modelled write always succeeds, matching the claims' success cases. -/
def Router.create_file (fs : FS) (file_path : Str) (content : Str) : Bool × FS :=
  (true, (file_path, utf8Encode content) :: fs)

/-- Universal-newline translation performed by Python text-mode reads: a
    carriage-return-and-newline pair and a lone carriage return each become a
    single newline in the returned string. -/
def univNewlines : Str → Str
  | [] => []
  | '\r' :: '\n' :: rest => '\n' :: univNewlines rest
  | '\r' :: rest => '\n' :: univNewlines rest
  | c :: rest => c :: univNewlines rest

/-- Model of Router._read_file: text-mode read decodes the stored bytes as
    UTF-8 and applies universal-newline translation; a missing file or a
    decode failure yields none (the source catches the exception and returns
    None). -/
def Router.read_file (fs : FS) (file_path : Str) : Option Str :=
  match fsLookup fs file_path with
  | some bs => (utf8Decode bs).map univNewlines
  | none => none

/-- Result of Router.resolve as seen by the caller's three-way unpacking.
    triple is a normal three-element return; pair models the two-element tuple
    that the POST success branch returns (its unpacking then raises ValueError
    in the caller); raises models an exception escaping resolve. -/
inductive Ret : Type
  | triple (status : Nat) (content_type : Str) (body : Str)
  | pair (status : Nat) (content_type : Str)
  | raises
deriving DecidableEq, Repr

/-- Python dict lookup for the route table.  add_route overwrites on duplicate
    registration; main registers distinct paths, so first-match lookup agrees. -/
def routeLookup : List (Str × Str) → Str → Option Str
  | [], _ => none
  | (k, v) :: rest, p => if k = p then some v else routeLookup rest p

/-- Model of Router._serve_file.  argv models sys.argv.  The POST branch
    returns the two-element tuple of the source with status CREATED = 200 and
    writes sys.argv with index three (not the request body); when argv has no
    index three, the IndexError is caught and the handler then evaluates the
    absent attribute HTTPStatus.INTERNAL_SERVER_ERROR, so an AttributeError
    escapes (Ret.raises). -/
def Router.serve_file (argv : List Str) (fs : FS) (path : Str) (method : Str) : Ret × FS :=
  match argv with
  | _ :: _ :: directory :: rest =>
    let filename := path.drop 7
    let file_path := directory ++ "/".data ++ filename
    if method = "GET".data then
      match Router.read_file fs file_path with
      | none => (.triple HTTPStatus.NOT_FOUND "text/plain".data "404 Not Found".data, fs)
      | some content => (.triple HTTPStatus.OK "application/octet-stream".data content, fs)
    else if method = "POST".data then
      match rest with
      | content :: _ =>
        let r := Router.create_file fs file_path content
        (.pair HTTPStatus.CREATED "application/octet-stream".data, r.2)
      | [] => (.raises, fs)
    else (.triple HTTPStatus.METHOD_NOT_ALLOWED "text/plain".data "Method Not Allowed".data, fs)
  | _ => (.triple HTTPStatus.NOT_FOUND "text/plain".data "404 Not Found".data, fs)

/-- Model of Router.resolve: method gate, exact route table, then the echo,
    user-agent and files target checks in source order, else 404. -/
def Router.resolve (argv : List Str) (routes : List (Str × Str)) (fs : FS)
    (method : Str) (path : Str) (user_agent : Str) : Ret × FS :=
  if ¬ (method = "GET".data ∨ method = "POST".data) then
    (.triple HTTPStatus.METHOD_NOT_ALLOWED "text/plain".data "Method Not Allowed".data, fs)
  else
    match routeLookup routes path with
    | some body => (.triple HTTPStatus.OK "text/plain".data body, fs)
    | none =>
      if startswith "/echo/".data path then
        (.triple HTTPStatus.OK "text/plain".data (path.drop 6), fs)
      else if startswith "/user-agent".data path then
        (.triple HTTPStatus.OK "text/plain".data user_agent, fs)
      else if startswith "/files/".data path then
        Router.serve_file argv fs path method
      else (.triple HTTPStatus.NOT_FOUND "text/plain".data "404 Not Found".data, fs)

/-- The route table registered by main: the home page and the hello route. -/
def mainRoutes : List (Str × Str) :=
  [("/".data, "Welcome to the home page!".data),
   ("/hello".data, "Hello, world!".data)]

/-- Decimal digit characters for rendering a natural number. -/
def digitChar : Nat → Char
  | 0 => '0' | 1 => '1' | 2 => '2' | 3 => '3' | 4 => '4'
  | 5 => '5' | 6 => '6' | 7 => '7' | 8 => '8' | _ => '9'

/-- Decimal rendering of a natural number, as Python str of an int. -/
def natDigits (n : Nat) : Str :=
  if _h : n < 10 then [digitChar n]
  else natDigits (n / 10) ++ [digitChar (n % 10)]
decreasing_by exact Nat.div_lt_self (by omega) (by omega)

/-- Model of HTTPServer._build_response: status line with the looked-up reason
    phrase, three fixed headers, blank line, body.  Content-Length is the
    length of the UTF-8 encoding of the body. -/
def build_response (status : Nat) (content_type : Str) (body : Str) : Str :=
  "HTTP/1.1 ".data ++ natDigits status ++ " ".data ++ HTTPStatus.get_message status ++
  "\r\n".data ++
  "Content-Type: ".data ++ content_type ++ "\r\n".data ++
  "Content-Length: ".data ++ natDigits (utf8Encode body).length ++ "\r\n".data ++
  "Connection: close\r\n".data ++
  "\r\n".data ++
  body

/-- Observer for the built response: drop everything up to and including the
    first carriage-return-and-newline pair. -/
def afterCRLF : Str → Str
  | [] => []
  | c :: rest =>
    if c = '\r' ∧ rest.head? = some '\n' then rest.tail else afterCRLF rest

/-- Numeric value of a decimal digit character. -/
def digitVal (c : Char) : Nat := c.toNat - 48

/-- Parse a string of decimal digits into a natural number. -/
def parseNat (s : Str) : Nat := s.foldl (fun acc c => acc * 10 + digitVal c) 0

/-- Observer extracting the Content-Length value announced by a built
    response: the third line must start with the header name, and the digits
    that follow are parsed. -/
def getContentLength (resp : Str) : Option Nat :=
  if startswith "Content-Length: ".data (afterCRLF (afterCRLF resp)) then
    some (parseNat (((afterCRLF (afterCRLF resp)).drop
      ("Content-Length: ".data).length).takeWhile Char.isDigit))
  else none

/- Helper lemmas. -/

/-- Each digit character produced by digitChar satisfies Char.isDigit. -/
lemma digitChar_isDigit (n : Nat) : (digitChar n).isDigit = true :=
  match n with
  | 0 => rfl | 1 => rfl | 2 => rfl | 3 => rfl | 4 => rfl
  | 5 => rfl | 6 => rfl | 7 => rfl | 8 => rfl | _ + 9 => rfl

/-- digitChar and digitVal are inverse on digits. -/
lemma digitVal_digitChar {n : Nat} (h : n < 10) : digitVal (digitChar n) = n := by
  interval_cases n <;> rfl

/-- Every character of a rendered natural number is a decimal digit. -/
lemma natDigits_all_digits : ∀ n c, c ∈ natDigits n → c.isDigit = true := by
  intro n
  induction n using Nat.strong_induction_on with
  | _ n ih =>
    intro c hc
    rw [natDigits] at hc
    by_cases h : n < 10
    · rw [dif_pos h] at hc
      simp only [List.mem_singleton] at hc
      subst hc
      exact digitChar_isDigit n
    · rw [dif_neg h] at hc
      rw [List.mem_append] at hc
      rcases hc with hc | hc
      · exact ih (n / 10) (Nat.div_lt_self (by omega) (by omega)) c hc
      · simp only [List.mem_singleton] at hc
        subst hc
        exact digitChar_isDigit _

/-- A rendered natural number contains no carriage return. -/
lemma noCR_natDigits (n : Nat) : '\r' ∉ natDigits n := fun h =>
  absurd (natDigits_all_digits n '\r' h) (by decide)

/-- Folding the decimal-parsing step over a rendered number recovers the
    number, shifted under the running accumulator. -/
lemma parseNat_go (n : Nat) : ∀ acc : Nat,
    List.foldl (fun acc c => acc * 10 + digitVal c) acc (natDigits n)
      = acc * 10 ^ (natDigits n).length + n := by
  induction n using Nat.strong_induction_on with
  | _ n ih =>
    intro acc
    rw [natDigits]
    by_cases h : n < 10
    · rw [dif_pos h]
      simp [digitVal_digitChar h]
    · rw [dif_neg h]
      rw [List.foldl_append]
      rw [ih (n / 10) (Nat.div_lt_self (by omega) (by omega)) acc]
      simp only [List.foldl_cons, List.foldl_nil, List.length_append, List.length_singleton]
      rw [digitVal_digitChar (Nat.mod_lt n (by omega))]
      rw [pow_succ, ← mul_assoc]
      generalize acc * 10 ^ (natDigits (n / 10)).length = X
      omega

/-- Parsing the decimal rendering of a natural number gives it back. -/
lemma parseNat_natDigits (n : Nat) : parseNat (natDigits n) = n := by
  have h := parseNat_go n 0
  simpa [parseNat] using h

/-- afterCRLF skips over any text containing no carriage return. -/
lemma afterCRLF_skip : ∀ (a b : Str), '\r' ∉ a → afterCRLF (a ++ b) = afterCRLF b := by
  intro a b
  induction a with
  | nil => intro _; rfl
  | cons c a' ih =>
    intro h
    have hc : c ≠ '\r' := fun e => h (e ▸ List.mem_cons_self c a')
    rw [List.cons_append, afterCRLF]
    rw [if_neg (fun hh => hc hh.1)]
    exact ih (fun hm => h (List.mem_cons_of_mem c hm))

/-- afterCRLF consumes a leading carriage-return-and-newline pair. -/
lemma afterCRLF_crlf (b : Str) : afterCRLF ("\r\n".data ++ b) = b := rfl

/-- Rewriting a literal carriage-return-and-newline append into cons form. -/
lemma crlf_cons (b : Str) : "\r\n".data ++ b = '\r' :: '\n' :: b := rfl

/-- Every list starts with itself, whatever follows. -/
lemma startswith_append_self : ∀ a b : List Char, startswith a (a ++ b) = true := by
  intro a b
  induction a with
  | nil => rfl
  | cons c a' ih => simp [startswith, ih]

/-- takeWhile collects a block that wholly satisfies the test and stops at the
    first following element that fails it. -/
lemma takeWhile_all_not (p : Char → Bool) :
    ∀ (a : List Char) (x : Char) (r : List Char), (∀ c ∈ a, p c = true) → p x = false →
      (a ++ x :: r).takeWhile p = a := by
  intro a x r
  induction a with
  | nil =>
    intro _ hx
    simp [List.takeWhile_cons, hx]
  | cons c a' ih =>
    intro ha hx
    have hc := ha c (List.mem_cons_self c a')
    simp only [List.cons_append, List.takeWhile_cons, hc, if_true]
    rw [ih (fun d hd => ha d (List.mem_cons_of_mem c hd)) hx]

/-- get_message only ever returns one of the four table values or the default
    empty string. -/
lemma get_message_cases (s : Nat) :
    HTTPStatus.get_message s = "OK".data ∨ HTTPStatus.get_message s = "Not Found".data ∨
    HTTPStatus.get_message s = "Method Not Allowed".data ∨
    HTTPStatus.get_message s = "Created".data ∨ HTTPStatus.get_message s = [] := by
  unfold HTTPStatus.get_message HTTPStatus.messages HTTPStatus.OK HTTPStatus.NOT_FOUND
    HTTPStatus.METHOD_NOT_ALLOWED HTTPStatus.CREATED
  simp only [dictGetLast]
  split_ifs <;> simp

/-- No reason phrase contains a carriage return. -/
lemma noCR_get_message (s : Nat) : '\r' ∉ HTTPStatus.get_message s := by
  rcases get_message_cases s with h | h | h | h | h <;> rw [h] <;> decide

/- Claim theorems. -/

/-- C1 (code evaluation at the failing input): a POST to a files target with a
    configured root and a successful write makes the router return the source's
    two-element tuple with status 200 — not a 201 response with an empty body.
    CREATED is 200 in the source, and the missing third tuple element makes the
    caller's three-way unpacking raise ValueError, so no response is sent. -/
theorem post_files_returns_pair_200 :
    Router.resolve ["app".data, "4221".data, "/tmp".data, "hello".data] mainRoutes []
        "POST".data "/files/note.txt".data []
      = (.pair 200 "application/octet-stream".data,
         [("/tmp/note.txt".data, utf8Encode "hello".data)]) := rfl

/-- C2 counterexample: a non-empty request whose first line has a single
    whitespace token does not yield the malformed sentinel; the unpacking of
    lines[0].split() raises ValueError, modelled as none. -/
theorem parse_single_token_raises : parse_request "GET".data = none := rfl

/-- C2 amended: the parser returns the sentinel only for empty input; for any
    input whose first line splits into fewer than two whitespace tokens it
    raises (none), and the connection handler catches the exception. -/
theorem parse_request_sentinel_or_raises :
    parse_request [] = some ([], [], []) ∧
    ∀ (raw first : Str) (rest : List Str), splitlines raw = first :: rest →
      (pySplitWs first).length < 2 → parse_request raw = none := by
  constructor
  · rfl
  · intro raw first rest h1 h2
    simp only [parse_request, h1]
    rcases e : pySplitWs first with _ | ⟨m, _ | ⟨p, t⟩⟩
    · rfl
    · rfl
    · rw [e] at h2
      simp at h2
      omega

/-- C2 witness: the amended theorem applied at a concrete two-line request
    whose first line has one token. -/
theorem parse_request_raises_witness : parse_request "POST\r\nfoo".data = none :=
  parse_request_sentinel_or_raises.2 "POST\r\nfoo".data "POST".data ["foo".data] rfl (by decide)

/-- C3 counterexample: for a raw request declaring content-length 3 and ending
    in the bytes abc, the content written by the POST is the fourth
    command-line argument xyz, not the last three bytes of the raw input; the
    parser extracts no body at all. -/
theorem post_ignores_request_body :
    (parse_request "POST /files/a HTTP/1.1\r\ncontent-length: 3\r\n\r\nabc".data
       = some ("POST".data, "/files/a".data, [])) ∧
    (Router.resolve ["srv".data, "4221".data, "/tmp".data, "xyz".data] mainRoutes []
        "POST".data "/files/a".data []
      = (.pair 200 "application/octet-stream".data,
         [("/tmp/a".data, utf8Encode "xyz".data)])) ∧
    utf8Encode "xyz".data ≠ utf8Encode "abc".data := ⟨rfl, rfl, by decide⟩

/-- C3 amended: the server never derives a body from the raw input; whatever
    the request carried, a POST to a files target writes the UTF-8 encoding of
    sys.argv index three to the resolved path. -/
theorem post_writes_argv3 (a0 a1 d content : Str) (rest : List Str) (fs : FS)
    (name ua : Str) :
    Router.resolve (a0 :: a1 :: d :: content :: rest) mainRoutes fs
        "POST".data ("/files/".data ++ name) ua
      = (.pair 200 "application/octet-stream".data,
         (d ++ "/".data ++ name, utf8Encode content) :: fs) := rfl

/-- C4 (code evaluation at the failing inputs): because CREATED is 200, the
    messages dict maps 200 to Created (not OK) and has no entry for 201, so
    get_message 201 is the empty default; 404 and 405 are as documented. -/
theorem get_message_collision :
    HTTPStatus.get_message 200 = "Created".data ∧ HTTPStatus.get_message 201 = [] ∧
    HTTPStatus.get_message 404 = "Not Found".data ∧
    HTTPStatus.get_message 405 = "Method Not Allowed".data ∧
    HTTPStatus.get_message 500 = [] := ⟨rfl, rfl, rfl, rfl, rfl⟩

/-- C5 (code evaluation at the failing input): the POST of the round trip
    returns the two-element tuple with status 200 (not a 201 response), and the
    following GET serves the UTF-8 decoding of what was stored — the encoding
    of sys.argv index three (xyz), not the posted body (hello). -/
theorem post_get_round_trip_broken :
    (Router.resolve ["app".data, "4221".data, "/tmp".data, "xyz".data] mainRoutes []
        "POST".data "/files/note.txt".data []
      = (.pair 200 "application/octet-stream".data,
         [("/tmp/note.txt".data, utf8Encode "xyz".data)])) ∧
    (Router.resolve ["app".data, "4221".data, "/tmp".data, "xyz".data] mainRoutes
        [("/tmp/note.txt".data, utf8Encode "xyz".data)]
        "GET".data "/files/note.txt".data []
      = (.triple 200 "application/octet-stream".data "xyz".data,
         [("/tmp/note.txt".data, utf8Encode "xyz".data)])) ∧
    "xyz".data ≠ "hello".data := ⟨rfl, rfl, by decide⟩

/-- C6: for every suffix s the echo target returns 200 text/plain with body
    exactly s (so the empty suffix gives an empty body), while the echo target
    without a trailing slash falls through to the 404 catch-all. -/
theorem echo_resolution (s ua : Str) (argv : List Str) (fs : FS) :
    (Router.resolve argv mainRoutes fs "GET".data ("/echo/".data ++ s) ua
      = (.triple 200 "text/plain".data s, fs)) ∧
    (Router.resolve argv mainRoutes fs "GET".data "/echo".data ua
      = (.triple 404 "text/plain".data "404 Not Found".data, fs)) := ⟨rfl, rfl⟩

/-- C7: the Content-Length value announced by a built response equals the
    length of the UTF-8 encoding of the body, for every status and every
    content type free of carriage returns. -/
theorem content_length_is_byte_length (status : Nat) (ct body : Str)
    (h : '\r' ∉ ct) :
    getContentLength (build_response status ct body) = some (utf8Encode body).length := by
  unfold build_response getContentLength
  simp only [List.append_assoc]
  rw [afterCRLF_skip "HTTP/1.1 ".data _ (by decide)]
  rw [afterCRLF_skip (natDigits status) _ (noCR_natDigits status)]
  rw [afterCRLF_skip " ".data _ (by decide)]
  rw [afterCRLF_skip (HTTPStatus.get_message status) _ (noCR_get_message status)]
  rw [afterCRLF_crlf]
  rw [afterCRLF_skip "Content-Type: ".data _ (by decide)]
  rw [afterCRLF_skip ct _ h]
  rw [afterCRLF_crlf]
  rw [if_pos (startswith_append_self "Content-Length: ".data _)]
  rw [List.drop_left]
  rw [crlf_cons]
  rw [takeWhile_all_not Char.isDigit (natDigits (utf8Encode body).length) '\r' _
    (fun c hc => natDigits_all_digits _ c hc) (by decide)]
  rw [parseNat_natDigits]

/-- C7 witness: the theorem applied to a body with a multi-byte character; its
    encoded length (6) differs from its character count (5). -/
theorem content_length_multibyte_witness :
    getContentLength (build_response 200 "text/plain".data "héllo".data)
      = some (utf8Encode "héllo".data).length ∧
    (utf8Encode "héllo".data).length ≠ ("héllo".data).length :=
  ⟨content_length_is_byte_length 200 "text/plain".data "héllo".data (by decide), by decide⟩

/-- C8 counterexample: a files GET serves content type application/octet-stream
    even for a file with the well-known html extension, exactly as for an
    unknown extension — no content type is derived from the extension. -/
theorem files_content_type_ignores_extension :
    (Router.resolve ["app".data, "4221".data, "/tmp".data] mainRoutes
        [("/tmp/page.html".data, utf8Encode "hi".data)]
        "GET".data "/files/page.html".data []
      = (.triple 200 "application/octet-stream".data "hi".data,
         [("/tmp/page.html".data, utf8Encode "hi".data)])) ∧
    (Router.resolve ["app".data, "4221".data, "/tmp".data] mainRoutes
        [("/tmp/data.zzz".data, utf8Encode "hi".data)]
        "GET".data "/files/data.zzz".data []
      = (.triple 200 "application/octet-stream".data "hi".data,
         [("/tmp/data.zzz".data, utf8Encode "hi".data)])) := ⟨rfl, rfl⟩

/-- C8 amended: every successful files GET against a configured root returns
    200 with content type application/octet-stream — regardless of the file's
    extension — and body equal to the decoded file contents after the
    universal-newline translation of the text-mode read. -/
theorem files_get_success_octet_stream (a0 a1 d : Str) (rest : List Str) (fs : FS)
    (name ua : Str) (bytes : List Nat) (content : Str)
    (hl : fsLookup fs (d ++ "/".data ++ name) = some bytes)
    (hd : utf8Decode bytes = some content) :
    Router.resolve (a0 :: a1 :: d :: rest) mainRoutes fs
        "GET".data ("/files/".data ++ name) ua
      = (.triple 200 "application/octet-stream".data (univNewlines content), fs) := by
  rw [show Router.resolve (a0 :: a1 :: d :: rest) mainRoutes fs
        "GET".data ("/files/".data ++ name) ua
      = Router.serve_file (a0 :: a1 :: d :: rest) fs ("/files/".data ++ name) "GET".data
      from rfl]
  rw [show Router.serve_file (a0 :: a1 :: d :: rest) fs ("/files/".data ++ name) "GET".data
      = (match Router.read_file fs (d ++ "/".data ++ name) with
         | none => (Ret.triple 404 "text/plain".data "404 Not Found".data, fs)
         | some content => (Ret.triple 200 "application/octet-stream".data content, fs))
      from rfl]
  unfold Router.read_file
  rw [hl]
  simp [hd]

/-- C8 witness: the amended theorem applied to a stored two-byte file. -/
theorem files_get_success_witness :
    Router.resolve ["app".data, "4221".data, "/tmp".data] mainRoutes
        [("/tmp/x.bin".data, [104, 105])] "GET".data ("/files/".data ++ "x.bin".data) []
      = (.triple 200 "application/octet-stream".data "hi".data,
         [("/tmp/x.bin".data, [104, 105])]) :=
  files_get_success_octet_stream "app".data "4221".data "/tmp".data [] _
    "x.bin".data [] [104, 105] "hi".data rfl rfl

/-- C9: the method gate is an exact string comparison, so any method other
    than the two uppercase tokens yields 405 Method Not Allowed with
    text/plain, whatever the target. -/
theorem non_get_post_is_405 (argv : List Str) (routes : List (Str × Str)) (fs : FS)
    (method path ua : Str) (h1 : method ≠ "GET".data) (h2 : method ≠ "POST".data) :
    Router.resolve argv routes fs method path ua
      = (.triple 405 "text/plain".data "Method Not Allowed".data, fs) := by
  have hcond : ¬ (method = "GET".data ∨ method = "POST".data) := by
    rintro (h | h)
    · exact h1 h
    · exact h2 h
  unfold Router.resolve
  rw [if_pos hcond]
  rfl

/-- C9 witness: the theorem applied to the lowercase method token. -/
theorem lowercase_get_is_405 :
    Router.resolve [] mainRoutes [] "get".data "/hello".data []
      = (.triple 405 "text/plain".data "Method Not Allowed".data, []) :=
  non_get_post_is_405 [] mainRoutes [] "get".data "/hello".data [] (by decide) (by decide)

/-- C10: a files GET whose stored bytes do not decode as UTF-8 is answered
    exactly like a missing file: 404 text/plain with body 404 Not Found. -/
theorem files_get_undecodable_404 (a0 a1 d : Str) (rest : List Str) (fs : FS)
    (name ua : Str) (bytes : List Nat)
    (hl : fsLookup fs (d ++ "/".data ++ name) = some bytes)
    (hd : utf8Decode bytes = none) :
    Router.resolve (a0 :: a1 :: d :: rest) mainRoutes fs
        "GET".data ("/files/".data ++ name) ua
      = (.triple 404 "text/plain".data "404 Not Found".data, fs) := by
  rw [show Router.resolve (a0 :: a1 :: d :: rest) mainRoutes fs
        "GET".data ("/files/".data ++ name) ua
      = Router.serve_file (a0 :: a1 :: d :: rest) fs ("/files/".data ++ name) "GET".data
      from rfl]
  rw [show Router.serve_file (a0 :: a1 :: d :: rest) fs ("/files/".data ++ name) "GET".data
      = (match Router.read_file fs (d ++ "/".data ++ name) with
         | none => (Ret.triple 404 "text/plain".data "404 Not Found".data, fs)
         | some content => (Ret.triple 200 "application/octet-stream".data content, fs))
      from rfl]
  unfold Router.read_file
  rw [hl]
  simp [hd]

/-- C10 witness: the theorem applied to a stored file holding the single
    byte 255, which no UTF-8 decoding accepts. -/
theorem files_get_invalid_utf8_witness :
    Router.resolve ["app".data, "4221".data, "/tmp".data] mainRoutes
        [("/tmp/b.bin".data, [255])] "GET".data ("/files/".data ++ "b.bin".data) []
      = (.triple 404 "text/plain".data "404 Not Found".data,
         [("/tmp/b.bin".data, [255])]) :=
  files_get_undecodable_404 "app".data "4221".data "/tmp".data [] _
    "b.bin".data [] [255] rfl rfl
